import Mathlib

/-!
Shallow embedding of the finance-tracker frontend (src/src/App.jsx, two
concatenated revisions; the older revision is the second document of the
file and also appears as src/unnamed/part_000).  Pure helpers are
translated directly; stateful UI handlers are modelled as explicit
effect-returning functions.
-/

namespace FinanceTracker

/-! ### Date / financial-year helpers (App.jsx lines 29-40, part_000 lines 38-59) -/

/-- Left-pads the decimal rendering of a number to two digits, as
String(month).padStart(2, "0") does for month numbers below 10. -/
def pad2 (n : Nat) : String :=
  if n < 10 then "0" ++ toString n else toString n

/-- getFYRange(fy) returns the strings fy-04-01 and (fy+1)-03-31. -/
def getFYRange (fy : Nat) : String × String :=
  (toString fy ++ "-04-01", toString (fy + 1) ++ "-03-31")

/-- MONTHS array of the review UI: financial-year month labels starting at
April, so index 0 is Apr and index 9 is Jan. -/
def MONTHS : List String :=
  ["Apr", "May", "Jun", "Jul", "Aug", "Sep", "Oct", "Nov", "Dec", "Jan", "Feb", "Mar"]

/-- getMonthRange(fy, monthIdx): calendar year is fy for indices below 9 and
fy+1 otherwise; calendar month is ((monthIdx+3) mod 12)+1; the result is the
half-open range from the first of that month to the first of the next. -/
def getMonthRange (fy monthIdx : Nat) : String × String :=
  let year := if monthIdx < 9 then fy else fy + 1
  let month := ((monthIdx + 3) % 12) + 1
  let start := toString year ++ "-" ++ pad2 month ++ "-01"
  let nm := if month = 12 then 1 else month + 1
  let ny := if month = 12 then year + 1 else year
  (start, toString ny ++ "-" ++ pad2 nm ++ "-01")

/-! ### Currency abbreviation formatter (App.jsx lines 11-18, part_000 lines 11-18) -/

/-- Renders a non-negative integer m, understood as value times 10 to the d,
with exactly d digits after the decimal point, as Number.toFixed does once the
rounded scaled value is known. -/
def renderFixedNat (m : Nat) (d : Nat) : String :=
  if d = 0 then toString m
  else
    let f := toString (m % 10 ^ d)
    toString (m / 10 ^ d) ++ "." ++ String.mk (List.replicate (d - f.length) '0') ++ f

/-- Scaled rounding behind Number.prototype.toFixed(d) on the non-negative
exact value num/den: the nearest integer to (num/den) times 10 to the d, with
halves rounded up, computed by floor division on naturals. -/
def roundScaled (num den d : Nat) : Nat :=
  (num * 10 ^ d * 2 + den) / (2 * den)

/-- Model of (num/den).toFixed(d) for den positive: the magnitude is rounded
at d fraction digits (halves away from zero) and rendered with exactly d
fraction digits, with a leading minus sign for negative inputs.  Faithful at
every input where the double rounding of the source value is not borderline,
which covers all inputs the formatter is evaluated at below. -/
def jsToFixed (num : Int) (den : Nat) (d : Nat) : String :=
  if num < 0 then "-" ++ renderFixedNat (roundScaled num.natAbs den d) d
  else renderFixedNat (roundScaled num.natAbs den d) d

/-- Currency abbreviation of the current revision (App.jsx lines 11-18): the
unit suffix is appended with no space, and values below 1000 are rendered with
en-IN grouping, which below 1000 is the plain decimal rendering. -/
def fmtCurrent (n : Int) : String :=
  let a := n.natAbs
  if a ≥ 10000000 then jsToFixed n 10000000 2 ++ "Cr"
  else if a ≥ 100000 then jsToFixed n 100000 2 ++ "L"
  else if a ≥ 1000 then jsToFixed n 1000 1 ++ "K"
  else toString n

/-- Currency abbreviation of the older revision (part_000 lines 11-18): the
same thresholds and rounding, but the unit suffix is preceded by a space. -/
def fmtLegacy (n : Int) : String :=
  let a := n.natAbs
  if a ≥ 10000000 then jsToFixed n 10000000 2 ++ " Cr"
  else if a ≥ 100000 then jsToFixed n 100000 2 ++ " L"
  else if a ≥ 1000 then jsToFixed n 1000 1 ++ " K"
  else toString n

/-! ### Accounts and net worth (App.jsx lines 282-288, 994-1012; older
revision lines 2184-2190) -/

/-- Account as the net-worth computations see it: its type string and the
parsed balance (parseFloat of calculated_balance or current_balance). -/
structure Account where
  account_type : String
  balance : Int
deriving DecidableEq, Repr

/-- Per-type balance total: the accumulation totals[a.account_type] += balance
restricted to one type key t, written as the fold the source loop performs. -/
def typeTotal (accounts : List Account) (t : String) : Int :=
  accounts.foldl (fun s a => if a.account_type = t then s + a.balance else s) 0

/-- Net worth of DashboardTab (line 288): Asset total minus the absolute value
of the Liability total. -/
def netWorthDashboard (accounts : List Account) : Int :=
  typeTotal accounts "Asset" - |typeTotal accounts "Liability"|

/-- Net worth of the current AccountsTab (line 1012): the hierarchy per-type
totals over the unfiltered account list are exactly the per-type fold, so the
computation is Asset total minus the absolute value of the Liability total. -/
def netWorthAccountsTab (accounts : List Account) : Int :=
  typeTotal accounts "Asset" - |typeTotal accounts "Liability"|

/-- Net worth of the older revision's AccountsTab (line 2190 of the combined
file): Asset total minus the Liability total, with no absolute value. -/
def netWorthAccountsTabLegacy (accounts : List Account) : Int :=
  typeTotal accounts "Asset" - typeTotal accounts "Liability"

/-! ### Transaction classification (App.jsx lines 440, 606-608) -/

/-- Labels a transaction row can receive in the transaction list. -/
inductive TxClass where
  | expense
  | income
  | transfer
deriving DecidableEq, Repr

/-- Classification of a transaction from its two account types, following the
chain isExp ? expense : isInc ? income : transfer with
isExp = (debit type is Expense) and isInc = (credit type is Income). -/
def classify (debitType creditType : String) : TxClass :=
  if debitType = "Expense" then TxClass.expense
  else if creditType = "Income" then TxClass.income
  else TxClass.transfer

/-! ### Staged import rows (ImportModal, App.jsx lines 775-811, 876-950) -/

/-- Staged transaction row with the fields the Review step reads; the
suggested account references are null or an account id. -/
structure StagedRow where
  id : Nat
  status : String
  suggested_debit_account_id : Option Int
  suggested_credit_account_id : Option Int
deriving DecidableEq, Repr

/-- JavaScript truthiness of a suggested account reference: null is falsy and
so is the number 0. -/
def idTruthy : Option Int → Bool
  | none => false
  | some v => decide (v ≠ 0)

/-- Row counted as active: its status differs from rejected (line 805). -/
def isActive (r : StagedRow) : Bool :=
  decide (r.status ≠ "rejected")

/-- Both suggested account references are truthy (line 881, hasAccounts). -/
def hasBothAccounts (r : StagedRow) : Bool :=
  idTruthy r.suggested_debit_account_id && idTruthy r.suggested_credit_account_id

/-- Row counted as ready to import (line 806, withAccounts): non-rejected with
both suggested accounts truthy. -/
def isReady (r : StagedRow) : Bool :=
  isActive r && hasBothAccounts r

/-- Count of active rows (line 805, activeCount). -/
def activeCount (staged : List StagedRow) : Nat :=
  (staged.filter isActive).length

/-- Count of rows ready to import (line 806, withAccounts), shown in the
ready-to-import indicator (line 947) and the Confirm button label. -/
def readyCount (staged : List StagedRow) : Nat :=
  (staged.filter isReady).length

/-- Warning marker of line 905: the needs-accounts warning is rendered exactly
when the row misses a suggested account and is not rejected. -/
def needsAccountsWarning (r : StagedRow) : Bool :=
  !hasBothAccounts r && !(r.status == "rejected")

/-- State update performed by rejectRow (line 781 via updateRow, line 778):
every row whose id matches gets status rejected; the list keeps its length and
order. -/
def rejectRow (staged : List StagedRow) (rid : Nat) : List StagedRow :=
  staged.map fun r => if r.id = rid then { r with status := "rejected" } else r

/-- Disabled flag of the Confirm Import button (line 949): true exactly when
the ready count is zero. -/
def confirmDisabled (staged : List StagedRow) : Bool :=
  readyCount staged == 0

/-! ### Shared API client error handling (api.call, App.jsx lines 56-69) -/

/-- HTTP response as api.call consumes it: a status code, the JSON body's
payload, and the body's optional error field. -/
structure ApiResponse where
  status : Nat
  body : String
  errorField : Option String
deriving DecidableEq, Repr

/-- Outcome of the fetch: either a response arrived, or the request failed at
the network level and fetch rejected with the Failed-to-fetch TypeError. -/
inductive FetchResult where
  | got (r : ApiResponse)
  | networkFailure
deriving DecidableEq, Repr

/-- Response.ok of the fetch API: status in the inclusive range 200 to 299. -/
def statusOk (s : Nat) : Bool :=
  decide (200 ≤ s) && decide (s ≤ 299)

/-- Message thrown for a non-2xx response (line 63): the body's error field,
or the status-derived default when that field is absent. -/
def httpErrorMessage (r : ApiResponse) : String :=
  r.errorField.getD ("Request failed (" ++ toString r.status ++ ")")

/-- Message of the TypeError fetch rejects with on a network-level failure. -/
def failedToFetchMsg : String := "Failed to fetch"

/-- Fixed advisory the catch block substitutes (line 66). -/
def wakingUpMsg : String := "Server waking up (~30s). Please retry."

/-- Character-list test of whether the second list starts with the first. -/
def startsWith2 : List Char → List Char → Bool
  | [], _ => true
  | _ :: _, [] => false
  | p :: ps, c :: cs => p == c && startsWith2 ps cs

/-- Character-list test of whether the second list contains the first as a
contiguous run. -/
def containsChars (pat : List Char) : List Char → Bool
  | [] => pat.isEmpty
  | c :: cs => startsWith2 pat (c :: cs) || containsChars pat cs

/-- Whether a message contains the substring Failed to fetch, the test
err.message.includes performs in the catch block. -/
def mentionsFailedToFetch (s : String) : Bool :=
  containsChars failedToFetchMsg.data s.data

/-- Body of the try block of api.call: success data for a 2xx response, the
thrown error message otherwise. -/
def apiCallRaw : FetchResult → Except String String
  | FetchResult.got r =>
      if statusOk r.status then Except.ok r.body else Except.error (httpErrorMessage r)
  | FetchResult.networkFailure => Except.error failedToFetchMsg

/-- Full api.call: the catch block rewrites any error whose message contains
Failed to fetch into the waking-up advisory and rethrows the rest. -/
def apiCall (f : FetchResult) : Except String String :=
  match apiCallRaw f with
  | Except.ok d => Except.ok d
  | Except.error m =>
      Except.error (if mentionsFailedToFetch m then wakingUpMsg else m)

/-! ### Import modal exits (ImportModal, App.jsx lines 811, 837, 945, 975;
TransactionsTab line 669) -/

/-- Steps of the import modal: 1 upload, 2 review, 3 done. -/
inductive ImportStep where
  | upload
  | review
  | done
deriving DecidableEq, Repr

/-- Ways the modal is exited: dismissing it (the X button or the backdrop,
which call the Modal onClose handler of line 811), the Cancel button of the
current step, or the Done button of step 3. -/
inductive ExitAction where
  | closeModal
  | cancelButton
  | doneButton
deriving DecidableEq, Repr

/-- Observable effects of an exit: whether a clear-staged request was issued,
whether the caller's refresh (fetchTxns and fetchSummary via onSuccess,
TransactionsTab line 669) ran, and whether the modal closed. -/
structure ExitEffects where
  clearIssued : Bool
  refreshIssued : Bool
  modalClosed : Bool
deriving DecidableEq, Repr

/-- Effects of each exit action at each step; none when the action does not
exist at that step.  Dismissal clears the batch exactly when batchId is truthy
and the step is review (line 811) and then calls onClose, which closes without
refreshing; the review Cancel button clears and closes (line 945); the Done
button calls onSuccess, which closes and refreshes (line 975 with line 669). -/
def exitEffects (step : ImportStep) (batchId : Option Nat) :
    ExitAction → Option ExitEffects
  | ExitAction.closeModal =>
      some { clearIssued := batchId.isSome && decide (step = ImportStep.review),
             refreshIssued := false, modalClosed := true }
  | ExitAction.cancelButton =>
      match step with
      | ImportStep.upload =>
          some { clearIssued := false, refreshIssued := false, modalClosed := true }
      | ImportStep.review =>
          some { clearIssued := true, refreshIssued := false, modalClosed := true }
      | ImportStep.done => none
  | ExitAction.doneButton =>
      match step with
      | ImportStep.done =>
          some { clearIssued := false, refreshIssued := true, modalClosed := true }
      | _ => none

/-- Observable effects of the review-exit handlers of lines 811 and 945 as a
function of how the issued clear-staged request settles: onClose() runs
unconditionally in both handlers, and the catch handler attached to the
clear-staged promise discards any rejection, so both branches coincide and no
toast is emitted. -/
def reviewExitOutcome (clearResult : Except String Unit) :
    Bool × List String :=
  match clearResult with
  | Except.ok _ => (true, [])
  | Except.error _ => (true, [])

/-! ### Startup session restore (App, lines 1259-1263 and 1272-1273) -/

/-- Client state the startup effect manipulates: the token persisted in
localStorage under ft_token, the api client token, and the signed-in user. -/
structure ClientState where
  storedToken : Option String
  apiToken : Option String
  user : Option String
deriving DecidableEq, Repr

/-- The login screen is rendered exactly when no user is set (line 1273). -/
def showsLoginScreen (s : ClientState) : Bool :=
  s.user.isNone

/-- Startup effect of lines 1259-1263: with no stored token nothing happens;
with one, the token is installed on the client and api.me() is awaited; on
success the user is set, on failure the persisted token is removed and the
client token cleared. -/
def startupRestore (stored : Option String)
    (validate : String → Except String String) : ClientState :=
  match stored with
  | none => { storedToken := none, apiToken := none, user := none }
  | some t =>
      match validate t with
      | Except.ok u => { storedToken := some t, apiToken := some t, user := some u }
      | Except.error _ => { storedToken := none, apiToken := none, user := none }

/-! ### Helper lemmas -/

/-- Folding the per-type accumulation from any initial value adds the fold
from zero. -/
theorem typeTotal_foldl (l : List Account) (t : String) (init : Int) :
    l.foldl (fun s a => if a.account_type = t then s + a.balance else s) init
      = init + typeTotal l t := by
  induction l generalizing init with
  | nil => simp [typeTotal]
  | cons a l ih =>
      simp only [typeTotal, List.foldl_cons]
      rw [ih, ih]
      by_cases h : a.account_type = t
      · simp [h, add_assoc]
      · simp [h]

/-- Unfolding the per-type total over a cons cell. -/
theorem typeTotal_cons (a : Account) (l : List Account) (t : String) :
    typeTotal (a :: l) t
      = (if a.account_type = t then a.balance else 0) + typeTotal l t := by
  simp only [typeTotal, List.foldl_cons]
  rw [typeTotal_foldl]
  by_cases h : a.account_type = t <;> simp [h, typeTotal]

/-- Per-type totals are invariant under permutations of the account list. -/
theorem typeTotal_perm {l1 l2 : List Account} (h : l1.Perm l2) (t : String) :
    typeTotal l1 t = typeTotal l2 t := by
  induction h with
  | nil => rfl
  | cons a _ ih => simp [typeTotal_cons, ih]
  | swap a b l => simp [typeTotal_cons]; ring
  | trans _ _ ih1 ih2 => exact ih1.trans ih2

/-- Rejecting a batch id turns the active flag of a row into the conjunction
of not having that id and being active before. -/
theorem isActive_reject (rid : Nat) (r : StagedRow) :
    isActive (if r.id = rid then { r with status := "rejected" } else r)
      = (decide (r.id ≠ rid) && isActive r) := by
  by_cases h : r.id = rid <;> simp [isActive, h]

/-- Rejecting a batch id turns the ready flag of a row into the conjunction of
not having that id and being ready before. -/
theorem isReady_reject (rid : Nat) (r : StagedRow) :
    isReady (if r.id = rid then { r with status := "rejected" } else r)
      = (decide (r.id ≠ rid) && isReady r) := by
  by_cases h : r.id = rid <;>
    simp [isReady, isActive, hasBothAccounts, h, Bool.and_assoc]

/-! ### Claim theorems -/

/-- Claim C2, counterexample: a transaction whose debit account type is
Expense and whose credit account type is Income is classified expense, not
income, so the claimed biconditional income-iff-credit-type-Income fails. -/
theorem c2_counterexample :
    classify "Expense" "Income" = TxClass.expense
  ∧ classify "Expense" "Income" ≠ TxClass.income := by decide

/-- Claim C2, amended: classification is expense iff the debit type is
Expense; income iff the credit type is Income and the debit type is not
Expense (expense takes priority); transfer otherwise; and every transaction
receives one of the three labels. -/
theorem c2_classification (d c : String) :
    (classify d c = TxClass.expense ↔ d = "Expense")
  ∧ (classify d c = TxClass.income ↔ (c = "Income" ∧ d ≠ "Expense"))
  ∧ (classify d c = TxClass.transfer ↔ (d ≠ "Expense" ∧ c ≠ "Income"))
  ∧ (classify d c = TxClass.expense ∨ classify d c = TxClass.income
      ∨ classify d c = TxClass.transfer) := by
  by_cases hd : d = "Expense" <;> by_cases hc : c = "Income" <;>
    simp [classify, hd, hc]

/-- Claim C3, counterexample: month index 10 of financial year 2024 maps to
the February range, not to the claimed January range. -/
theorem c3_counterexample :
    getMonthRange 2024 10 = ("2025-02-01", "2025-03-01")
  ∧ getMonthRange 2024 10 ≠ ("2025-01-01", "2025-02-01") := by decide

/-- Claim C3, amended: the financial-year range of FY 2024 is 2024-04-01 to
2025-03-31; January is month index 9 of the April-first month list and maps to
the half-open range 2025-01-01 to 2025-02-01, while index 10 is February and
maps to 2025-02-01 to 2025-03-01. -/
theorem c3_fy_and_month_ranges :
    getFYRange 2024 = ("2024-04-01", "2025-03-31")
  ∧ getMonthRange 2024 9 = ("2025-01-01", "2025-02-01")
  ∧ MONTHS.get? 9 = some "Jan"
  ∧ getMonthRange 2024 10 = ("2025-02-01", "2025-03-01")
  ∧ MONTHS.get? 10 = some "Feb" := by decide

/-- Claim C5, counterexample: the current revision's formatter renders
12,345,678 with no space before the unit, so the claimed value with the space
is not produced. -/
theorem c5_counterexample :
    fmtCurrent 12345678 = "1.23Cr"
  ∧ fmtCurrent 12345678 ≠ "1.23 Cr" := by decide

/-- Claim C5, amended: on the four claimed inputs the current formatter yields
1.23Cr, 2.35L, 4.5K and 900, with no space before the unit; the older
revision's formatter yields the claimed spaced forms 1.23 Cr, 2.35 L, 4.5 K
and 900. -/
theorem c5_formatter_values :
    fmtCurrent 12345678 = "1.23Cr"
  ∧ fmtCurrent 234567 = "2.35L"
  ∧ fmtCurrent 4500 = "4.5K"
  ∧ fmtCurrent 900 = "900"
  ∧ fmtLegacy 12345678 = "1.23 Cr"
  ∧ fmtLegacy 234567 = "2.35 L"
  ∧ fmtLegacy 4500 = "4.5 K"
  ∧ fmtLegacy 900 = "900" := by decide

/-- Claim C7: the Confirm Import action is enabled (not disabled) exactly when
at least one staged row is ready to import, and disabled exactly when the
ready count is zero, so confirming with zero ready rows is unreachable. -/
theorem c7_confirm_enabled (staged : List StagedRow) :
    (confirmDisabled staged = false ↔ 1 ≤ readyCount staged)
  ∧ (confirmDisabled staged = true ↔ readyCount staged = 0) := by
  constructor <;> simp [confirmDisabled, Nat.one_le_iff_ne_zero]

/-- Claim C4, counterexample: on a single Liability account holding the
conventional negative balance, the older revision's AccountsTab computes Asset
total minus Liability total without the absolute value and yields 100, while
the claimed formula yields -100. -/
theorem c4_counterexample :
    netWorthAccountsTabLegacy [{ account_type := "Liability", balance := -100 }] = 100
  ∧ netWorthDashboard [{ account_type := "Liability", balance := -100 }] = -100
  ∧ netWorthAccountsTabLegacy [{ account_type := "Liability", balance := -100 }]
      ≠ typeTotal [{ account_type := "Liability", balance := -100 }] "Asset"
        - |typeTotal [{ account_type := "Liability", balance := -100 }] "Liability"| := by
  decide

/-- Claim C4, amended: the DashboardTab and the current AccountsTab net worth
equal the Asset total minus the absolute value of the Liability total, the
older revision's AccountsTab net worth equals the Asset total minus the
Liability total with no absolute value, and all three are invariant under
permutations of the account list. -/
theorem c4_net_worth (l1 l2 : List Account) (h : l1.Perm l2) :
    netWorthDashboard l1 = typeTotal l1 "Asset" - |typeTotal l1 "Liability"|
  ∧ netWorthAccountsTab l1 = netWorthDashboard l1
  ∧ netWorthAccountsTabLegacy l1 = typeTotal l1 "Asset" - typeTotal l1 "Liability"
  ∧ netWorthDashboard l1 = netWorthDashboard l2
  ∧ netWorthAccountsTab l1 = netWorthAccountsTab l2
  ∧ netWorthAccountsTabLegacy l1 = netWorthAccountsTabLegacy l2 := by
  have ha := typeTotal_perm h "Asset"
  have hl := typeTotal_perm h "Liability"
  simp [netWorthDashboard, netWorthAccountsTab, netWorthAccountsTabLegacy, ha, hl]

/-- Claim C4, witness: the amended theorem applied to a concrete two-account
list and its transposition. -/
theorem c4_net_worth_witness :
    netWorthDashboard
        [{ account_type := "Asset", balance := 500 },
         { account_type := "Liability", balance := -100 }]
      = netWorthDashboard
        [{ account_type := "Liability", balance := -100 },
         { account_type := "Asset", balance := 500 }] := by
  exact (c4_net_worth
    [{ account_type := "Asset", balance := 500 },
     { account_type := "Liability", balance := -100 }]
    [{ account_type := "Liability", balance := -100 },
     { account_type := "Asset", balance := 500 }]
    (by decide)).2.2.2.1

/-- Claim C1: the ready-to-import count equals the number of staged rows that
are not rejected and have both suggested account references populated;
rejecting a row by id keeps the list length and keeps the row (with status
rejected) in the displayed list while removing it from the active and ready
counts; and a non-rejected row missing a suggested account shows the
needs-accounts warning, is excluded from the ready count, and is not
rejected. -/
theorem c1_review_counts (staged : List StagedRow) (rid : Nat) :
    readyCount staged = staged.countP (fun r => isActive r && hasBothAccounts r)
  ∧ (rejectRow staged rid).length = staged.length
  ∧ activeCount (rejectRow staged rid)
      = staged.countP (fun r => decide (r.id ≠ rid) && isActive r)
  ∧ readyCount (rejectRow staged rid)
      = staged.countP (fun r => decide (r.id ≠ rid) && isReady r)
  ∧ (∀ r ∈ staged, r.id = rid →
      ({ r with status := "rejected" } : StagedRow) ∈ rejectRow staged rid)
  ∧ (∀ r : StagedRow, isActive r = true → hasBothAccounts r = false →
      needsAccountsWarning r = true ∧ isReady r = false ∧ r.status ≠ "rejected") := by
  refine ⟨?_, ?_, ?_, ?_, ?_, ?_⟩
  · simp only [List.countP_eq_length_filter]
    rfl
  · simp [rejectRow]
  · simp only [activeCount, rejectRow, ← List.countP_eq_length_filter,
      List.countP_map]
    congr 1
    funext r
    simp only [Function.comp_def]
    exact isActive_reject rid r
  · simp only [readyCount, rejectRow, ← List.countP_eq_length_filter,
      List.countP_map]
    congr 1
    funext r
    simp only [Function.comp_def]
    exact isReady_reject rid r
  · intro r hr hid
    exact List.mem_map.mpr ⟨r, hr, by simp [hid]⟩
  · intro r hact hmiss
    have hs : r.status ≠ "rejected" := by simpa [isActive] using hact
    refine ⟨?_, ?_, hs⟩
    · simp [needsAccountsWarning, hmiss, hs]
    · simp [isReady, hmiss]

/-- Claim C1, witness: the theorem applied to a concrete two-row list,
rejecting the second row, which also misses its credit account. -/
theorem c1_review_counts_witness :
    ({ id := 2, status := "rejected", suggested_debit_account_id := some 4,
       suggested_credit_account_id := none } : StagedRow)
      ∈ rejectRow
          [{ id := 1, status := "pending", suggested_debit_account_id := some 4,
             suggested_credit_account_id := some 5 },
           { id := 2, status := "pending", suggested_debit_account_id := some 4,
             suggested_credit_account_id := none }] 2
  ∧ needsAccountsWarning
      { id := 2, status := "pending", suggested_debit_account_id := some 4,
        suggested_credit_account_id := none } = true
  ∧ isReady
      { id := 2, status := "pending", suggested_debit_account_id := some 4,
        suggested_credit_account_id := none } = false := by
  have h := c1_review_counts
    [{ id := 1, status := "pending", suggested_debit_account_id := some 4,
       suggested_credit_account_id := some 5 },
     { id := 2, status := "pending", suggested_debit_account_id := some 4,
       suggested_credit_account_id := none }] 2
  obtain ⟨-, -, -, -, hmem, hwarn⟩ := h
  have h1 := hmem
    { id := 2, status := "pending", suggested_debit_account_id := some 4,
      suggested_credit_account_id := none } (by simp) rfl
  have h2 := hwarn
    { id := 2, status := "pending", suggested_debit_account_id := some 4,
      suggested_credit_account_id := none } (by decide) (by decide)
  exact ⟨h1, h2.1, h2.2.1⟩

/-- Claim C6, counterexample: a 500 response whose body error field is the
string Failed to fetch is a non-network failure, yet the surfaced message is
rewritten to the waking-up advisory instead of carrying the error field, so
both the error-field clause and the exactly-when-network clause fail. -/
theorem c6_counterexample :
    apiCall (FetchResult.got
        { status := 500, body := "", errorField := some "Failed to fetch" })
      = Except.error wakingUpMsg
  ∧ httpErrorMessage
        { status := 500, body := "", errorField := some "Failed to fetch" }
      = "Failed to fetch"
  ∧ wakingUpMsg ≠ "Failed to fetch" := by
  exact ⟨rfl, rfl, by decide⟩

/-- Claim C6, amended: a 2xx response yields its body; a non-2xx response
surfaces the body's error field (or the status-derived default) unless that
message contains the substring Failed to fetch, in which case it is rewritten
to the waking-up advisory; and a network-level failure, whose rejection
message is Failed to fetch, always surfaces the advisory. -/
theorem c6_api_call_errors (r : ApiResponse) :
    (statusOk r.status = true → apiCall (FetchResult.got r) = Except.ok r.body)
  ∧ (statusOk r.status = false →
      apiCall (FetchResult.got r)
        = Except.error
            (if mentionsFailedToFetch (httpErrorMessage r) then wakingUpMsg
             else httpErrorMessage r))
  ∧ apiCall FetchResult.networkFailure = Except.error wakingUpMsg := by
  refine ⟨?_, ?_, ?_⟩
  · intro h; simp [apiCall, apiCallRaw, h]
  · intro h; simp [apiCall, apiCallRaw, h]
  · rfl

/-- Claim C6, witness: the amended theorem applied to a concrete 404 response
with no error field and to a concrete 200 response. -/
theorem c6_api_call_errors_witness :
    apiCall (FetchResult.got { status := 404, body := "", errorField := none })
      = Except.error "Request failed (404)"
  ∧ apiCall (FetchResult.got { status := 200, body := "payload", errorField := none })
      = Except.ok "payload" := by
  have h1 := (c6_api_call_errors
    { status := 404, body := "", errorField := none }).2.1 (by decide)
  have h2 := (c6_api_call_errors
    { status := 200, body := "payload", errorField := none }).1 (by decide)
  refine ⟨?_, h2⟩
  rw [h1]
  rfl

/-- Claim C8, counterexample: dismissing the modal with the X button or the
backdrop at the Done step is an exit from Done that issues no clear-staged
request but also triggers no refresh, contradicting the clause that closing
from Done triggers a refresh. -/
theorem c8_counterexample :
    exitEffects ImportStep.done (some 1) ExitAction.closeModal
      = some { clearIssued := false, refreshIssued := false, modalClosed := true }
  ∧ ({ clearIssued := false, refreshIssued := false, modalClosed := true }
        : ExitEffects).refreshIssued = false := by decide

/-- Claim C8, amended: every exit available at the Review step with the batch
id present issues a clear-staged request and no refresh; no exit from the Done
step issues a clear-staged request; the Done button closes and triggers the
caller's refresh; dismissing the modal at the Done step closes without a
refresh. -/
theorem c8_exit_effects (b : Nat) (bo : Option Nat) (e : ExitAction)
    (eff : ExitEffects) :
    (exitEffects ImportStep.review (some b) e = some eff →
        eff.clearIssued = true ∧ eff.refreshIssued = false)
  ∧ (exitEffects ImportStep.done bo e = some eff → eff.clearIssued = false)
  ∧ exitEffects ImportStep.done bo ExitAction.doneButton
      = some { clearIssued := false, refreshIssued := true, modalClosed := true }
  ∧ exitEffects ImportStep.done bo ExitAction.closeModal
      = some { clearIssued := false, refreshIssued := false, modalClosed := true } := by
  refine ⟨?_, ?_, ?_, ?_⟩
  · cases e <;> simp [exitEffects] <;> rintro rfl <;> simp
  · cases e <;> simp [exitEffects] <;> rintro rfl <;> simp
  · simp [exitEffects]
  · simp [exitEffects]

/-- Claim C8, witness: the amended theorem applied at the review-step Cancel
button and at the done-step Done button. -/
theorem c8_exit_effects_witness :
    ({ clearIssued := true, refreshIssued := false, modalClosed := true }
        : ExitEffects).clearIssued = true
  ∧ exitEffects ImportStep.done none ExitAction.doneButton
      = some { clearIssued := false, refreshIssued := true, modalClosed := true } := by
  have h := c8_exit_effects 1 none ExitAction.cancelButton
    { clearIssued := true, refreshIssued := false, modalClosed := true }
  exact ⟨(h.1 (by decide)).1, h.2.2.1⟩

/-- Claim C9: on startup with a stored token, a successful validation call
restores the session (the user is set, the client token installed, the login
screen not shown) without credential re-entry, while a failed validation
removes the persisted token, clears the client token, and shows the login
screen. -/
theorem c9_startup_restore (t u m : String)
    (validate : String → Except String String) :
    (validate t = Except.ok u →
        (startupRestore (some t) validate).user = some u
      ∧ (startupRestore (some t) validate).apiToken = some t
      ∧ showsLoginScreen (startupRestore (some t) validate) = false)
  ∧ (validate t = Except.error m →
        (startupRestore (some t) validate).storedToken = none
      ∧ (startupRestore (some t) validate).apiToken = none
      ∧ showsLoginScreen (startupRestore (some t) validate) = true) := by
  constructor <;> intro h <;> simp [startupRestore, showsLoginScreen, h]

/-- Claim C9, witness: the theorem applied to a concrete token with a
validator that accepts it and to one with a validator that rejects it. -/
theorem c9_startup_restore_witness :
    (startupRestore (some "tok") (fun _ => Except.ok "alice")).user = some "alice"
  ∧ showsLoginScreen
      (startupRestore (some "tok") (fun _ => Except.error "expired")) = true := by
  have h1 := (c9_startup_restore "tok" "alice" "x"
    (fun _ => Except.ok "alice")).1 rfl
  have h2 := (c9_startup_restore "tok" "u" "expired"
    (fun _ => Except.error "expired")).2 rfl
  exact ⟨h1.1, h2.2.2⟩

/-- Claim C10: however the clear-staged request issued on cancelling or
closing the Review step settles, the handler closes the modal and emits no
toast, and the outcome of a failed request is indistinguishable from a
successful one, so the failure is silently swallowed and never verified. -/
theorem c10_clear_failure_swallowed (m : String) (r : Except String Unit) :
    reviewExitOutcome r = (true, [])
  ∧ reviewExitOutcome (Except.error m) = reviewExitOutcome (Except.ok ()) := by
  cases r <;> simp [reviewExitOutcome]

end FinanceTracker
